import Mathlib

/-!
Verification of the node-r2k Impinj Indy R2000 reader driver.

This development is a shallow embedding of the packet framing, response
dispatching and command engine of the `R2KReader` class, together with the
codec primitives it relies on.  Bytes are modelled as `Nat` (wire bytes are
0..255; the arithmetic that wraps in the TypeScript source, namely the
`Uint8Array` accumulator of the LRC, is modelled with explicit `% 256`
wrapping over `Int`).  Buffers are `List Nat`, `Buffer.subarray` becomes
`List.take`/`List.drop`, and `undefined`/thrown range errors become
`Option`.  Event emission and callback resolution are modelled by the list
of events a packet produces.
-/

namespace R2K

/-- Packet header byte (constants catalog `PacketHeader`). -/
def PacketHeader : Nat := 0xA0

/-- RSSI offset in dBm (constants catalog `RSSIOffset = -129`). -/
def RSSIOffset : Int := -129

/-- Broadcast peer address (constants catalog `Address.PUBLIC`). -/
def AddressPUBLIC : Nat := 0xFF

namespace Command

/-! Command codes from the constants catalog `CommandsBase`. -/

def GET_GPIO_VALUE : Nat := 0x60
def SET_GPIO_VALUE : Nat := 0x61
def SET_ANT_CONNECTION_DETECTOR : Nat := 0x62
def GET_ANT_CONNECTION_DETECTOR : Nat := 0x63
def SET_TEMPORARY_OUTPUT_POWER : Nat := 0x66
def SET_READER_IDENTIFIER : Nat := 0x67
def GET_READER_IDENTIFIER : Nat := 0x68
def SET_RF_LINK_PROFILE : Nat := 0x69
def GET_RF_LINK_PROFILE : Nat := 0x6A
def RESET : Nat := 0x70
def SET_UART_BAUDRATE : Nat := 0x71
def GET_FIRMWARE_VERSION : Nat := 0x72
def SET_READER_ADDRESS : Nat := 0x73
def SET_WORK_ANTENNA : Nat := 0x74
def GET_WORK_ANTENNA : Nat := 0x75
def SET_OUTPUT_POWER : Nat := 0x76
def GET_OUTPUT_POWER : Nat := 0x77
def SET_FREQUENCY_REGION : Nat := 0x78
def GET_FREQUENCY_REGION : Nat := 0x79
def SET_BEEPER_MODE : Nat := 0x7A
def GET_READER_TEMPERATURE : Nat := 0x7B
def SET_DRM_MODE : Nat := 0x7C
def GET_DRM_MODE : Nat := 0x7D
def GET_RF_PORT_RETURN_LOSS : Nat := 0x7E
def INVENTORY : Nat := 0x80
def READ : Nat := 0x81
def WRITE : Nat := 0x82
def LOCK : Nat := 0x83
def KILL : Nat := 0x84
def SET_ACCESS_EPC_MATCH : Nat := 0x85
def GET_ACCESS_EPC_MATCH : Nat := 0x86
def REAL_TIME_INVENTORY : Nat := 0x89
def FAST_SWITCH_ANT_INVENTORY : Nat := 0x8A
def CUSTOMIZED_SESSION_TARGET_INVENTORY : Nat := 0x8B
def SET_IMPINJ_FAST_TID : Nat := 0x8C
def SET_AND_SAVE_IMPINJ_FAST_TID : Nat := 0x8D
def GET_IMPINJ_FAST_TID : Nat := 0x8E
def GET_ANT_SWITCH_SEQUENCE : Nat := 0x8F
def GET_INVENTORY_BUFFER : Nat := 0x90
def GET_AND_RESET_INVENTORY_BUFFER : Nat := 0x91
def GET_INVENTORY_BUFFER_TAG_COUNT : Nat := 0x92
def RESET_INVENTORY_BUFFER : Nat := 0x93
def WRITE_BLOCK : Nat := 0x94
def GET_OUTPUT_POWER_8P : Nat := 0x97
def TAG_MASK : Nat := 0x98
def SET_MODULE_FUNCTION : Nat := 0xA0
def GET_MODULE_FUNCTION : Nat := 0xA1
def ISO18000_6B_INVENTORY : Nat := 0xB0
def ISO18000_6B_READ : Nat := 0xB1
def ISO18000_6B_WRITE : Nat := 0xB2
def ISO18000_6B_LOCK : Nat := 0xB3
def ISO18000_6B_QUERY_LOCK : Nat := 0xB4

end Command

/-- Values of the `Command` table: the codes a reply packet may carry
(`Object.values(Command).includes(command)` in `processResponsePacket`).
The codes `0x8F`, `0xA0`, `0xA1` are referenced by the reader class; they sit
in the part of the constants catalog not shipped here and are taken from the
wire table of the specification. -/
def knownCommands : List Nat :=
  [0x60, 0x61, 0x62, 0x63, 0x66, 0x67, 0x68, 0x69, 0x6A,
   0x70, 0x71, 0x72, 0x73, 0x74, 0x75, 0x76, 0x77, 0x78, 0x79, 0x7A, 0x7B, 0x7C, 0x7D, 0x7E,
   0x80, 0x81, 0x82, 0x83, 0x84, 0x85, 0x86,
   0x89, 0x8A, 0x8B, 0x8C, 0x8D, 0x8E, 0x8F,
   0x90, 0x91, 0x92, 0x93, 0x94, 0x97, 0x98,
   0xA0, 0xA1,
   0xB0, 0xB1, 0xB2, 0xB3, 0xB4]

namespace CommandErrors

/-! Error codes from the constants catalog `ErrorsBase`. -/

def SUCCESS : Nat := 0x10
def FAIL : Nat := 0x11
def ANTENNA_MISSING_ERROR : Nat := 0x22
def BUFFER_IS_EMPTY_ERROR : Nat := 0x38
def FAIL_TO_GET_RF_PORT_RETURN_LOSS : Nat := 0xEE

end CommandErrors

/-- RF link profile codes from the constants catalog `RFLinkProfilesBase`
(P0 = 0xD0 .. P3 = 0xD3). -/
def RFLinkProfileValues : List Nat := [0xD0, 0xD1, 0xD2, 0xD3]

/-- Phase flag tracked by the engine (constants catalog `PhaseValue`,
used as `PhaseMode` by the reader class). -/
inductive PhaseMode where
  | OFF
  | ON
deriving DecidableEq

/-- Numeric wire value of a phase flag (OFF = 0, ON = 1). -/
def PhaseMode.code : PhaseMode → Nat
  | .OFF => 0
  | .ON => 1

/-- Antenna port identifiers (constants catalog `AntennaID`, A1 = 0 .. A8 = 7,
DISABLED = 0xFF). -/
inductive AntennaID where
  | A1
  | A2
  | A3
  | A4
  | A5
  | A6
  | A7
  | A8
  | DISABLED
deriving DecidableEq

/-- Numeric value of an antenna identifier. -/
def AntennaID.code : AntennaID → Nat
  | .A1 => 0
  | .A2 => 1
  | .A3 => 2
  | .A4 => 3
  | .A5 => 4
  | .A6 => 5
  | .A7 => 6
  | .A8 => 7
  | .DISABLED => 0xFF

/-- Reverse lookup `AntennaID[n]` used by the antenna-missing branch of
`processResponsePacket`: the enum member whose numeric value is `n`. -/
def antennaIDOfCode (n : Nat) : Option AntennaID :=
  if n = 0 then some .A1
  else if n = 1 then some .A2
  else if n = 2 then some .A3
  else if n = 3 then some .A4
  else if n = 4 then some .A5
  else if n = 5 then some .A6
  else if n = 6 then some .A7
  else if n = 7 then some .A8
  else if n = 0xFF then some .DISABLED
  else none

/-- Error-return policies (`ReturnsError` in the constants catalog). -/
inductive ReturnsError where
  | NO
  | YES
  | IF_SINGLE_BYTE_DATA
  | SOMETIMES
deriving DecidableEq

/-- Modelled from the spec: the per-command error-return policy table
`CommandReturnsError`.  The table lives in the part of `constants.ts` that is
not among the shipped sources (only its import and uses are); the
specification fixes its semantics (section 4.2): set-style commands answer
with an error code (YES), tag and inventory commands answer with an error
code exactly when the reply payload is a single byte (IF_SINGLE_BYTE_DATA),
and `GET_RF_LINK_PROFILE`, `GET_RF_PORT_RETURN_LOSS` and `TAG_MASK` have
command-specific handling (SOMETIMES). -/
def CommandReturnsError (command : Nat) : ReturnsError :=
  if command ∈ [Command.SET_GPIO_VALUE, Command.SET_ANT_CONNECTION_DETECTOR,
      Command.SET_TEMPORARY_OUTPUT_POWER, Command.SET_READER_IDENTIFIER,
      Command.SET_RF_LINK_PROFILE, Command.SET_UART_BAUDRATE,
      Command.SET_READER_ADDRESS, Command.SET_WORK_ANTENNA,
      Command.SET_OUTPUT_POWER, Command.SET_FREQUENCY_REGION,
      Command.SET_BEEPER_MODE, Command.SET_DRM_MODE,
      Command.SET_ACCESS_EPC_MATCH, Command.SET_IMPINJ_FAST_TID,
      Command.SET_AND_SAVE_IMPINJ_FAST_TID, Command.RESET_INVENTORY_BUFFER,
      Command.SET_MODULE_FUNCTION] then .YES
  else if command ∈ [Command.INVENTORY, Command.READ, Command.WRITE,
      Command.LOCK, Command.KILL, Command.REAL_TIME_INVENTORY,
      Command.FAST_SWITCH_ANT_INVENTORY,
      Command.CUSTOMIZED_SESSION_TARGET_INVENTORY,
      Command.GET_INVENTORY_BUFFER, Command.GET_AND_RESET_INVENTORY_BUFFER,
      Command.WRITE_BLOCK, Command.ISO18000_6B_INVENTORY,
      Command.ISO18000_6B_READ, Command.ISO18000_6B_WRITE,
      Command.ISO18000_6B_LOCK, Command.ISO18000_6B_QUERY_LOCK] then
    .IF_SINGLE_BYTE_DATA
  else if command ∈ [Command.GET_RF_LINK_PROFILE,
      Command.GET_RF_PORT_RETURN_LOSS, Command.TAG_MASK] then .SOMETIMES
  else .NO

/-- Modelled from the spec: the default response timeout of `sendCommand`
(`DefaultResponseTimeout`).  The constant is imported by the reader class but
defined in the missing part of `constants.ts`; the specification states the
default timeout is 1000 ms. -/
def DefaultResponseTimeout : Nat := 1000

/-- Modelled from the spec: required ISO 18000-6B UID length in bytes
(`ISO180006BUIDLength`, "UID of tag (8 bytes)"). -/
def ISO180006BUIDLength : Nat := 8

/-- ISO 1155 longitudinal redundancy check (`iso1155LRC` in the utilities):
a one-byte `Uint8Array` accumulator starts at 0 and wrap-subtracts every
input byte. -/
def iso1155LRC (bytes : List Nat) : Nat :=
  (bytes.foldl (fun (u : Int) (b : Nat) => (u - b) % 256) 0).toNat

/-- The LRC fold keeps its accumulator reduced modulo 256. -/
theorem iso1155LRC_foldl (bs : List Nat) (u : Int) (hu : u % 256 = u) :
    bs.foldl (fun (u : Int) (b : Nat) => (u - b) % 256) u
      = (u - (bs.sum : Int)) % 256 := by
  induction bs generalizing u with
  | nil => simpa using hu.symm
  | cons b rest ih =>
      have h2 : ((u - (b : Int)) % 256) % 256 = (u - (b : Int)) % 256 :=
        Int.emod_emod_of_dvd _ dvd_rfl
      rw [List.foldl_cons, ih _ h2, List.sum_cons]
      push_cast
      rw [Int.sub_emod, Int.emod_emod_of_dvd _ dvd_rfl, ← Int.sub_emod]
      ring_nf

/-- Closed form of the LRC: the two-complement negation of the byte sum. -/
theorem iso1155LRC_eq (bs : List Nat) :
    iso1155LRC bs = (256 - bs.sum % 256) % 256 := by
  unfold iso1155LRC
  rw [iso1155LRC_foldl bs 0 (by norm_num)]
  omega

/-- Packet number array built by `R2KReader.sendCommand`:
`[PacketHeader, data.length + 3, rs485Address, command, ...data]` with the
ISO 1155 LRC over those bytes appended.  This is the plain number array
handed to `Buffer.from`, before that constructor truncates each entry
modulo 256; it also serves to frame inbound packets, whose bytes are
already in 0..255, with a valid LRC. -/
def sendCommandPacket (rs485Address command : Nat) (data : List Nat) : List Nat :=
  let packetData := [PacketHeader, data.length + 3, rs485Address, command] ++ data
  packetData ++ [iso1155LRC packetData]

/-- Bytes `sendCommand` actually writes to the serial port: `Buffer.from`
truncates every entry of the packet array modulo 256. -/
def sendCommandWrittenBytes (rs485Address command : Nat) (data : List Nat) :
    List Nat :=
  (sendCommandPacket rs485Address command data).map (fun b => b % 256)

/-- Big-endian 16-bit read at offset `i` (`Buffer.readUInt16BE`). -/
def readUInt16BE (data : List Nat) (i : Nat) : Nat :=
  data.getD i 0 * 256 + data.getD (i + 1) 0

/-- Inventoried EPC C1G2 tag (`InventoriedTag` in the interfaces). -/
structure InventoriedTag where
  pc : Nat
  epc : List Nat
  rssi : Int
  antenna : Nat
  frequency : Nat
  phaseAngle : Option Nat
deriving DecidableEq

/-- Buffered inventory record (`BufferedInventoriedTag` in the interfaces). -/
structure BufferedInventoriedTag where
  pc : Nat
  epc : List Nat
  crc : Nat
  rssi : Int
  antenna : Nat
  frequency : Nat
  count : Nat
deriving DecidableEq

/-- Tag mask record (`TagMask` in the interfaces). -/
structure TagMask where
  maskID : Nat
  target : Nat
  action : Nat
  membank : Nat
  address : Nat
  bitLength : Nat
  mask : List Nat
deriving DecidableEq

/-- Read reply record (`ReadTag` in the interfaces). -/
structure ReadTag where
  pc : Nat
  epc : List Nat
  crc : Nat
  data : List Nat
  antenna : Nat
  frequency : Nat
  count : Nat
deriving DecidableEq

/-- Write, lock and kill reply record (`WriteTag`, `LockTag` and `KillTag`
in the interfaces share this shape). -/
structure WLKTag where
  pc : Nat
  epc : List Nat
  crc : Nat
  antenna : Nat
  frequency : Nat
  errorCode : Nat
  count : Nat
deriving DecidableEq

/-- Per-address accumulator queues (`R2KReader.queues` entries). -/
structure AddressQueues where
  masks : List TagMask
  inventory : List BufferedInventoriedTag
  read : List ReadTag
  write : List WLKTag
  lock : List WLKTag
  kill : List WLKTag
deriving DecidableEq

/-- The empty queue record installed by `this.queues[address] ??= ...`. -/
def AddressQueues.empty : AddressQueues :=
  { masks := [], inventory := [], read := [], write := [], lock := [], kill := [] }

/-- Data handed to a pending-command callback (`ResponseData` in the
interfaces). -/
structure ResponseData where
  length : Nat
  address : Nat
  command : Nat
  data : List Nat
  errorCode : Option Nat
  success : Bool
deriving DecidableEq

/-- Host-side state of the reader engine: configured peer address, the FIFO
of pending commands (only the command codes matter to the dispatcher), the
per-address accumulator queues, and the phase flag. -/
structure ReaderState where
  rs485Address : Nat
  responseCallbacks : List Nat
  queues : Nat → AddressQueues
  phaseMode : PhaseMode

/-- Observable effects of processing one inbound packet: emitted events and
the invocation of the front matching pending-command callback. -/
inductive REvent where
  | antennaMissing (antenna : Option AntennaID)
  | tag6BFound (antenna : Nat) (uid : List Nat)
  | tagFound (tag : InventoriedTag)
  | resolved (response : ResponseData)
deriving DecidableEq

/-- Tag sighting parser for real-time, fast-switch and session inventory
(`R2KReader.processCommandInventory`).  With phase mode ON the last two
bytes carry the phase angle and the EPC and RSSI positions shift left
by two. -/
def processCommandInventory (phaseMode : PhaseMode) (data : List Nat) :
    InventoriedTag :=
  let phaseOffset : Nat := match phaseMode with | .ON => 2 | .OFF => 0
  let rssiByte := data.getD (data.length - 1 - phaseOffset) 0
  { pc := readUInt16BE data 1
    epc := (data.take (data.length - 1 - phaseOffset)).drop 3
    rssi := (Int.ofNat (rssiByte &&& 0x7f)) + RSSIOffset
    antenna := (data.getD 0 0 &&& 0x03) + 4 * (rssiByte >>> 7)
    frequency := (data.getD 0 0 &&& 0xfc) >>> 2
    phaseAngle :=
      match phaseMode with
      | .ON => some (readUInt16BE data (data.length - 2))
      | .OFF => none }

/-- Buffered inventory record parser
(the record pushed by `R2KReader.processCommandGetInventoryBuffer`). -/
def parseBufferedInventoryRecord (data : List Nat) : BufferedInventoriedTag :=
  { pc := readUInt16BE data 3
    epc := (data.take (data.length - 5)).drop 5
    crc := readUInt16BE data (data.length - 5)
    rssi := (Int.ofNat (data.getD (data.length - 3) 0 &&& 0x7f)) + RSSIOffset
    antenna := (data.getD (data.length - 2) 0 &&& 0x03)
      + 4 * (data.getD (data.length - 3) 0 >>> 7)
    frequency := (data.getD (data.length - 2) 0 &&& 0xfc) >>> 2
    count := data.getD (data.length - 1) 0 }

/-- Tag mask record parser (the record pushed by
`R2KReader.processCommandTagMask`). -/
def parseTagMaskRecord (data : List Nat) : TagMask :=
  { maskID := data.getD 0 0
    target := data.getD 2 0
    action := data.getD 3 0
    membank := data.getD 4 0
    address := data.getD 5 0
    bitLength := data.getD 6 0
    mask := data.drop 7 }

/-- Read reply record parser (the record pushed by
`R2KReader.processCommandRead`). -/
def parseReadRecord (data : List Nat) : ReadTag :=
  let readDataLength := data.getD (data.length - 3) 0
  { pc := readUInt16BE data 3
    epc := (data.take (data.length - 5 - readDataLength)).drop 5
    crc := readUInt16BE data (data.length - 5 - readDataLength)
    data := (data.take (data.length - 3)).drop (data.length - 3 - readDataLength)
    antenna := (data.getD (data.length - 2) 0 &&& 0x03)
      + 4 * (data.getD (data.length - 1) 0 >>> 7)
    frequency := (data.getD (data.length - 2) 0 &&& 0xfc) >>> 2
    count := data.getD (data.length - 1) 0 &&& 0x7f }

/-- Write, lock and kill reply record parser (the record pushed by
`R2KReader.processCommandWLK`). -/
def parseWLKRecord (data : List Nat) : WLKTag :=
  { pc := readUInt16BE data 3
    epc := (data.take (data.length - 5)).drop 5
    crc := readUInt16BE data (data.length - 5)
    antenna := (data.getD (data.length - 2) 0 &&& 0x03)
      + 4 * (data.getD (data.length - 1) 0 >>> 7)
    frequency := (data.getD (data.length - 2) 0 &&& 0xfc) >>> 2
    errorCode := data.getD (data.length - 3) 0
    count := data.getD (data.length - 1) 0 &&& 0x7f }

/-- Replace the queue record of one address. -/
def ReaderState.updateQueues (st : ReaderState) (address : Nat)
    (f : AddressQueues → AddressQueues) : ReaderState :=
  { st with queues := fun x => if x = address then f (st.queues x) else st.queues x }

/-- Multi-packet reply handler (`R2KReader.processMultiResponsePacketData`).
Returns the new state, the emitted events and the `skipCallback` flag
(`true` when processing of the packet is complete and no pending command is
to be resolved). -/
def processMultiResponsePacketData (st : ReaderState) (command address : Nat)
    (data : List Nat) : ReaderState × List REvent × Bool :=
  if command = Command.ISO18000_6B_INVENTORY ∧ data.length = 9 then
    (st, [REvent.tag6BFound (data.getD 0 0) (data.drop 1)], true)
  else if (command = Command.REAL_TIME_INVENTORY ∨
      command = Command.FAST_SWITCH_ANT_INVENTORY ∨
      command = Command.CUSTOMIZED_SESSION_TARGET_INVENTORY) ∧ 7 < data.length then
    (st, [REvent.tagFound (processCommandInventory st.phaseMode data)], true)
  else if command = Command.GET_INVENTORY_BUFFER ∨
      command = Command.GET_AND_RESET_INVENTORY_BUFFER then
    let queue := (st.queues address).inventory ++ [parseBufferedInventoryRecord data]
    (st.updateQueues address (fun q => { q with inventory := queue }), [],
     decide (readUInt16BE data 0 ≠ queue.length ∨
       command = Command.GET_AND_RESET_INVENTORY_BUFFER))
  else if command = Command.TAG_MASK ∧ 7 < data.length then
    let queue := (st.queues address).masks ++ [parseTagMaskRecord data]
    (st.updateQueues address (fun q => { q with masks := queue }), [],
     decide (data.getD 1 0 ≠ queue.length))
  else if command = Command.READ then
    let queue := (st.queues address).read ++ [parseReadRecord data]
    (st.updateQueues address (fun q => { q with read := queue }), [],
     decide (readUInt16BE data 0 ≠ queue.length))
  else if command = Command.WRITE ∨ command = Command.WRITE_BLOCK then
    let queue := (st.queues address).write ++ [parseWLKRecord data]
    (st.updateQueues address (fun q => { q with write := queue }), [],
     decide (readUInt16BE data 0 ≠ queue.length))
  else if command = Command.LOCK then
    let queue := (st.queues address).lock ++ [parseWLKRecord data]
    (st.updateQueues address (fun q => { q with lock := queue }), [],
     decide (readUInt16BE data 0 ≠ queue.length))
  else if command = Command.KILL then
    let queue := (st.queues address).kill ++ [parseWLKRecord data]
    (st.updateQueues address (fun q => { q with kill := queue }), [],
     decide (readUInt16BE data 0 ≠ queue.length))
  else
    (st, [], false)

/-- Accumulator clearing performed when the resync loop pops a non-matching
pending entry (the else-branch of the resolve loop in
`processResponsePacket`). -/
def clearQueueForCommand (command packetLength : Nat) (q : AddressQueues) :
    AddressQueues :=
  if command = Command.GET_INVENTORY_BUFFER ∨
      command = Command.GET_AND_RESET_INVENTORY_BUFFER then
    { q with inventory := [] }
  else if command = Command.TAG_MASK ∧ 13 < packetLength then
    { q with masks := [] }
  else if command = Command.READ then { q with read := [] }
  else if command = Command.WRITE ∨ command = Command.WRITE_BLOCK then
    { q with write := [] }
  else if command = Command.LOCK then { q with lock := [] }
  else if command = Command.KILL then { q with kill := [] }
  else q

/-- Resynchronization loop of `processResponsePacket`: pop pending entries
until one matches the command of the reply; clear the accumulator queue of
each non-matching popped entry.  Returns the remaining pending list, the
updated queues and the response handed to the matching callback, if any. -/
def resolveLoop (address packetLength : Nat) (rd : ResponseData) :
    List Nat → (Nat → AddressQueues) →
      List Nat × (Nat → AddressQueues) × Option ResponseData
  | [], queues => ([], queues, none)
  | c :: rest, queues =>
    if c = rd.command then (rest, queues, some rd)
    else resolveLoop address packetLength rd rest
      (fun x => if x = address then clearQueueForCommand c packetLength (queues x)
        else queues x)

/-- Success flag computed for a callback invocation in
`processResponsePacket`. -/
def responseSuccess (errorCode : Option Nat) (command : Nat) : Bool :=
  errorCode.isNone || errorCode == some CommandErrors.SUCCESS ||
    (errorCode == some CommandErrors.BUFFER_IS_EMPTY_ERROR &&
      command == Command.GET_AND_RESET_INVENTORY_BUFFER)

/-- Final stage of `processResponsePacket`: build the `ResponseData` and run
the resynchronization loop over the pending list. -/
def resolveResponse (st : ReaderState) (events : List REvent)
    (length address command : Nat) (data : List Nat) (errorCode : Option Nat)
    (packetLength : Nat) : ReaderState × List REvent :=
  let rd : ResponseData :=
    { length := length, address := address, command := command, data := data,
      errorCode := errorCode, success := responseSuccess errorCode command }
  let r := resolveLoop address packetLength rd st.responseCallbacks st.queues
  ({ st with responseCallbacks := r.1, queues := r.2.1 },
   events ++ (match r.2.2 with | some rd2 => [REvent.resolved rd2] | none => []))

/-- Inbound packet dispatcher (`R2KReader.processResponsePacket`): integrity
check, address filter, command validity, error classification, event
demultiplexing, multi-packet accumulation and resolution. -/
def processResponsePacket (st : ReaderState) (packet : List Nat) :
    ReaderState × List REvent :=
  let length := packet.getD 1 0
  if length < 4 ∨ packet.length ≠ length + 2 then (st, [])
  else if packet.getLastD 0 ≠ iso1155LRC packet.dropLast then (st, [])
  else
    let address := packet.getD 2 0
    if st.rs485Address ≠ AddressPUBLIC ∧ address ≠ st.rs485Address then (st, [])
    else
      let command := packet.getD 3 0
      if command ∉ knownCommands then (st, [])
      else
        let p4 := packet.getD 4 0
        if CommandReturnsError command = ReturnsError.YES ∨
            (CommandReturnsError command = ReturnsError.IF_SINGLE_BYTE_DATA ∧
              length = 4) ∨
            (command = Command.GET_RF_LINK_PROFILE ∧ p4 ∉ RFLinkProfileValues) ∨
            (command = Command.GET_RF_PORT_RETURN_LOSS ∧
              p4 = CommandErrors.FAIL_TO_GET_RF_PORT_RETURN_LOSS) ∨
            (command = Command.TAG_MASK ∧ length = 4 ∧ p4 ≠ 0) then
          resolveResponse st [] length address command
            ((packet.drop 5).dropLast) (some p4) packet.length
        else if command = Command.FAST_SWITCH_ANT_INVENTORY ∧ length = 5 then
          (st, [REvent.antennaMissing (antennaIDOfCode p4)])
        else
          let m := processMultiResponsePacketData st command address
            ((packet.drop 4).dropLast)
          if m.2.2 then (m.1, m.2.1)
          else resolveResponse m.1 m.2.1 length address command
            ((packet.drop 4).dropLast) none packet.length

/-- Outcome of the response timeout registered by `sendCommand`: either the
promise is resolved with a `ResponseData` or it is rejected with a timeout
error. -/
inductive TimeoutOutcome where
  | resolved (response : ResponseData)
  | rejectedTimeout
deriving DecidableEq

/-- Timeout callback of `R2KReader.sendCommand`: a timeout on `RESET` is the
expected success (no reply is ever sent), any other command is rejected
with a timeout error. -/
def sendCommandTimeout (rs485Address command : Nat) : TimeoutOutcome :=
  if command = Command.RESET then
    TimeoutOutcome.resolved
      { length := 3, address := rs485Address, command := Command.RESET,
        data := [], errorCode := none, success := true }
  else TimeoutOutcome.rejectedTimeout

/-- Packet written by `R2KReader.setWorkingAntenna`. -/
def setWorkingAntennaRun (st : ReaderState) (antenna : Nat) : List Nat :=
  sendCommandPacket st.rs485Address Command.SET_WORK_ANTENNA [antenna]

/-- Argument validation `ensureByteSize` from the utilities: a `RangeError`
is thrown unless the number fits a byte. -/
def ensureByteSize (num : Nat) : Bool := decide (num ≤ 255)

/-- Run of `R2KReader.startBufferedInventory` up to the serial write:
validation, state update, packet and registered timeout.  `none` models the
thrown `RangeError`. -/
def startBufferedInventoryRun (st : ReaderState) (rep : Nat) :
    Option (ReaderState × List Nat × Nat) :=
  if ¬ ensureByteSize rep then none
  else some (st, sendCommandPacket st.rs485Address Command.INVENTORY [rep],
    rep * 255 + DefaultResponseTimeout)

/-- Run of `R2KReader.startRealTimeInventory` up to the serial write. -/
def startRealTimeInventoryRun (st : ReaderState) (rep : Nat) :
    Option (ReaderState × List Nat × Nat) :=
  if ¬ ensureByteSize rep then none
  else some ({ st with phaseMode := PhaseMode.OFF },
    sendCommandPacket st.rs485Address Command.REAL_TIME_INVENTORY [rep],
    rep * 255 + DefaultResponseTimeout)

/-- Run of `R2KReader.startSessionInventory` up to the serial write.  The
powersave validation is guarded by its truthiness (`if (powersave)`), the
timeout term `powersave ? powersave * 64 : 0`, and the optional arguments
are appended only while every preceding optional argument is present. -/
def startSessionInventoryRun (st : ReaderState) (rep session target : Nat)
    (select : Option Nat) (phase : Option PhaseMode) (powersave : Option Nat) :
    Option (ReaderState × List Nat × Nat) :=
  if ¬ ensureByteSize rep then none
  else if ¬ (match powersave with
      | some p => if p = 0 then true else ensureByteSize p
      | none => true : Bool) = true then none
  else
    let timeout := rep * 64 +
      (match powersave with
        | some p => if p = 0 then 0 else p * 64
        | none => 0) + DefaultResponseTimeout
    let data := [session, target] ++
      (match select with
        | none => []
        | some s => [s] ++
          (match phase with
            | none => []
            | some ph => [ph.code] ++
              (match powersave with | none => [] | some p => [p])))
      ++ [rep]
    some ({ st with phaseMode := phase.getD PhaseMode.OFF },
      sendCommandPacket st.rs485Address
        Command.CUSTOMIZED_SESSION_TARGET_INVENTORY data,
      timeout)

/-- Run of `R2KReader.startFastSwitchAntennaInventory` up to the serial
write.  `antennas` is the list of supplied (antenna, repeat) pairs; the long
session block is appended only for the 8-antenna overload with session,
target and phase all present. -/
def startFastSwitchAntennaInventoryRun (st : ReaderState)
    (rep restInterval : Nat) (antennas : List (Nat × Nat))
    (session target : Option Nat) (phase : Option PhaseMode) :
    Option (ReaderState × List Nat × Nat) :=
  if ¬ ensureByteSize rep then none
  else if ¬ ensureByteSize restInterval then none
  else
    let data := (antennas.flatMap (fun a => [a.1, a.2])) ++ [restInterval] ++
      (if antennas.length = 8 ∧ session.isSome ∧ target.isSome ∧ phase.isSome
        then [0, 0, 0, 0, 0, session.getD 0, target.getD 0, 0, 0, 0,
          (phase.getD PhaseMode.OFF).code]
        else []) ++ [rep]
    some ({ st with phaseMode := phase.getD PhaseMode.OFF },
      sendCommandPacket st.rs485Address Command.FAST_SWITCH_ANT_INVENTORY data,
      rep * 255 + DefaultResponseTimeout)

/-- Packet written by `R2KReader.write6BTag` after validation
(`none` models a thrown `RangeError`).  The command code passed to
`sendCommand` there is `Command.ISO18000_6B_READ`. -/
def write6BTagRun (st : ReaderState) (uid : List Nat) (address len : Nat)
    (data : List Nat) : Option (List Nat) :=
  if ¬ ensureByteSize address then none
  else if ¬ ensureByteSize len then none
  else if uid.length ≠ ISO180006BUIDLength then none
  else some (sendCommandPacket st.rs485Address Command.ISO18000_6B_READ
    (uid ++ [address, len] ++ data))

/-- Packet written by `R2KReader.lock6BTagByte` after validation.  The
command code passed to `sendCommand` there is `Command.ISO18000_6B_READ`. -/
def lock6BTagByteRun (st : ReaderState) (uid : List Nat) (address : Nat) :
    Option (List Nat) :=
  if ¬ ensureByteSize address then none
  else if uid.length ≠ ISO180006BUIDLength then none
  else some (sendCommandPacket st.rs485Address Command.ISO18000_6B_READ
    (uid ++ [address]))

/-- Packet written by `R2KReader.queryLock6BTagByte` after validation.  The
command code passed to `sendCommand` there is `Command.ISO18000_6B_READ`. -/
def queryLock6BTagByteRun (st : ReaderState) (uid : List Nat) (address : Nat) :
    Option (List Nat) :=
  if ¬ ensureByteSize address then none
  else if uid.length ≠ ISO180006BUIDLength then none
  else some (sendCommandPacket st.rs485Address Command.ISO18000_6B_READ
    (uid ++ [address]))

/-- Concrete engine state used in the scenario theorems: broadcast peer
address, the given pending-command FIFO, empty queues, phase mode OFF. -/
def fixtureState (pending : List Nat) : ReaderState :=
  { rs485Address := AddressPUBLIC, responseCallbacks := pending,
    queues := fun _ => AddressQueues.empty, phaseMode := PhaseMode.OFF }

/-- Inbound buffered-inventory record with big-endian total count `cnt`,
empty EPC, raw RSSI 0x50 and per-tag count 1. -/
def bufferRecordData (cnt : Nat) : List Nat :=
  [0x00, cnt, 0x04, 0x00, 0x00, 0x00, 0x00, 0x50, 0x00, 0x01]

/-- A well-built packet unfolds into a cons prefix plus its LRC byte. -/
theorem sendCommandPacket_cons (address command : Nat) (data : List Nat) :
    sendCommandPacket address command data
      = ([PacketHeader, data.length + 3, address, command] ++ data)
        ++ [iso1155LRC ([PacketHeader, data.length + 3, address, command] ++ data)] :=
  rfl

/-- Dispatcher reduction: a packet framed by `sendCommandPacket` passes the
integrity check, and when the address filter, the command validity check and
the error classification all let it through (and it is not the length-5
fast-switch event), `processResponsePacket` reduces to the multi-packet
accumulation stage followed by the resolution stage. -/
theorem processResponsePacket_reduction (st : ReaderState)
    (address command : Nat) (data : List Nat)
    (hlen : 1 ≤ data.length)
    (haddr : st.rs485Address = AddressPUBLIC ∨ address = st.rs485Address)
    (hknown : command ∈ knownCommands)
    (herr : ¬ (CommandReturnsError command = ReturnsError.YES ∨
      (CommandReturnsError command = ReturnsError.IF_SINGLE_BYTE_DATA ∧
        data.length + 3 = 4) ∨
      (command = Command.GET_RF_LINK_PROFILE ∧
        data.getD 0 0 ∉ RFLinkProfileValues) ∨
      (command = Command.GET_RF_PORT_RETURN_LOSS ∧
        data.getD 0 0 = CommandErrors.FAIL_TO_GET_RF_PORT_RETURN_LOSS) ∨
      (command = Command.TAG_MASK ∧ data.length + 3 = 4 ∧ data.getD 0 0 ≠ 0)))
    (hfs : ¬ (command = Command.FAST_SWITCH_ANT_INVENTORY ∧
      data.length + 3 = 5)) :
    processResponsePacket st (sendCommandPacket address command data)
      = (if (processMultiResponsePacketData st command address data).2.2 then
          ((processMultiResponsePacketData st command address data).1,
           (processMultiResponsePacketData st command address data).2.1)
        else
          resolveResponse (processMultiResponsePacketData st command address data).1
            (processMultiResponsePacketData st command address data).2.1
            (data.length + 3) address command data none (data.length + 5)) := by
  obtain ⟨d0, dtl, rfl⟩ : ∃ d0 dtl, data = d0 :: dtl := by
    cases data with
    | nil => simp at hlen
    | cons a l => exact ⟨a, l, rfl⟩
  rw [sendCommandPacket_cons]
  set pfx : List Nat :=
    [PacketHeader, (d0 :: dtl).length + 3, address, command] ++ (d0 :: dtl)
    with hpfx
  set L : Nat := iso1155LRC pfx with hLdef
  have hget1 : (pfx ++ [L]).getD 1 0 = (d0 :: dtl).length + 3 := by
    simp [hpfx]
  have hlenp : (pfx ++ [L]).length = (d0 :: dtl).length + 5 := by
    simp [hpfx]
  have hlast : (pfx ++ [L]).getLastD 0 = L := by
    simp
  have hdropl : (pfx ++ [L]).dropLast = pfx := List.dropLast_concat
  have hget2 : (pfx ++ [L]).getD 2 0 = address := by simp [hpfx]
  have hget3 : (pfx ++ [L]).getD 3 0 = command := by simp [hpfx]
  have hget4 : (pfx ++ [L]).getD 4 0 = d0 := by simp [hpfx]
  have hdrop4 : ((pfx ++ [L]).drop 4).dropLast = d0 :: dtl := by
    have : (pfx ++ [L]).drop 4 = (d0 :: dtl) ++ [L] := by simp [hpfx]
    rw [this, List.dropLast_concat]
  unfold processResponsePacket
  simp only [hget1, hget2, hget3, hget4, hlast, hdropl, hlenp, hdrop4]
  rw [if_neg (by omega)]
  rw [if_neg (by simp [hLdef])]
  rw [if_neg (by
    intro hcon
    rcases haddr with h | h
    · exact hcon.1 h
    · exact hcon.2 h)]
  rw [if_neg (by simpa using hknown)]
  rw [if_neg (by simpa using herr)]
  rw [if_neg (by simpa using hfs)]

/-- The LRC is a byte. -/
theorem iso1155LRC_lt (bs : List Nat) : iso1155LRC bs < 256 := by
  rw [iso1155LRC_eq]
  omega

/-- Truncating every summand modulo 256 does not change a sum modulo 256. -/
theorem sum_map_mod (l : List Nat) :
    (l.map (fun b => b % 256)).sum % 256 = l.sum % 256 := by
  induction l with
  | nil => rfl
  | cons a t ih =>
      simp only [List.map_cons, List.sum_cons]
      omega

set_option maxRecDepth 4000 in
/-- C1 counterexample: for a 253-byte payload of byte-sized entries the
written length byte wraps to (253 + 3) mod 256 = 0, which is neither the
total packet length minus 2 (= 256) nor d.length + 3 (= 256). -/
theorem sendCommand_length_byte_counterexample :
    (sendCommandWrittenBytes AddressPUBLIC Command.WRITE_BLOCK
        (List.replicate 253 0)).getD 1 0 = 0 ∧
    (sendCommandWrittenBytes AddressPUBLIC Command.WRITE_BLOCK
        (List.replicate 253 0)).length - 2 = 256 ∧
    (List.replicate 253 (0 : Nat)).length + 3 = 256 ∧
    (0 : Nat) ≠ 256 := by decide

/-- C1 amended: every packet written by `sendCommand` has byte 0 equal to
0xA0, byte 1 equal to (data.length + 3) mod 256 — which is the total packet
length minus 2 whenever the payload holds at most 252 bytes — and a last
byte equal to the ISO 1155 LRC
`(256 - (sum of the preceding bytes mod 256)) mod 256` over bytes 0 through
the last payload byte; in particular `reset()` with the default broadcast
address writes exactly the bytes A0 03 FF 70 EE. -/
theorem sendCommand_packet_framing (rs485Address command : Nat)
    (data : List Nat) :
    (sendCommandWrittenBytes rs485Address command data).getD 0 0 = 0xA0 ∧
    (sendCommandWrittenBytes rs485Address command data).getD 1 0
      = (data.length + 3) % 256 ∧
    (data.length ≤ 252 →
      (sendCommandWrittenBytes rs485Address command data).getD 1 0
        = (sendCommandWrittenBytes rs485Address command data).length - 2) ∧
    (sendCommandWrittenBytes rs485Address command data).getLastD 0
      = (256 - (sendCommandWrittenBytes rs485Address command
          data).dropLast.sum % 256) % 256 ∧
    sendCommandWrittenBytes AddressPUBLIC Command.RESET []
      = [0xA0, 0x03, 0xFF, 0x70, 0xEE] := by
  have hL : iso1155LRC ([PacketHeader, data.length + 3, rs485Address, command]
      ++ data) % 256
      = iso1155LRC ([PacketHeader, data.length + 3, rs485Address, command]
      ++ data) :=
    Nat.mod_eq_of_lt (iso1155LRC_lt _)
  have hmap : sendCommandWrittenBytes rs485Address command data
      = (([PacketHeader, data.length + 3, rs485Address, command]
          ++ data).map (fun b => b % 256))
        ++ [iso1155LRC ([PacketHeader, data.length + 3, rs485Address, command]
          ++ data)] := by
    rw [sendCommandWrittenBytes, sendCommandPacket_cons, List.map_append]
    simp [hL]
    exact iso1155LRC_lt _
  refine ⟨?_, ?_, ?_, ?_, by decide⟩
  · rw [hmap]
    simp [PacketHeader]
  · rw [hmap]
    simp
  · intro hle
    rw [hmap]
    have hlen : ((([PacketHeader, data.length + 3, rs485Address, command]
        ++ data).map (fun b => b % 256))
        ++ [iso1155LRC ([PacketHeader, data.length + 3, rs485Address, command]
          ++ data)]).length = data.length + 5 := by
      simp
    rw [hlen]
    simp [Nat.mod_eq_of_lt (show data.length + 3 < 256 by omega)]
  · rw [hmap, List.dropLast_concat]
    simp only [List.getLastD_concat]
    rw [iso1155LRC_eq, sum_map_mod]

/-- Witness for the amended C1: the conditional length-byte equality holds
at the reset packet. -/
theorem sendCommand_packet_framing_witness :
    (sendCommandWrittenBytes AddressPUBLIC Command.RESET []).getD 1 0
      = (sendCommandWrittenBytes AddressPUBLIC Command.RESET []).length - 2 :=
  (sendCommand_packet_framing AddressPUBLIC Command.RESET []).2.2.1 (by decide)

/-- The resynchronization loop hands the callback exactly the response
record it was given. -/
theorem resolveLoop_resolved_eq (address packetLength : Nat)
    (rd rd2 : ResponseData) (pending : List Nat)
    (queues : Nat → AddressQueues)
    (h : (resolveLoop address packetLength rd pending queues).2.2 = some rd2) :
    rd2 = rd := by
  induction pending generalizing queues with
  | nil => simp [resolveLoop] at h
  | cons c rest ih =>
      simp only [resolveLoop] at h
      split at h
      · simp at h
        exact h.symm
      · exact ih _ h

/-- The multi-packet accumulation stage never invokes a callback: its events
are tag sightings only. -/
theorem processMulti_no_resolved (st : ReaderState) (command address : Nat)
    (data : List Nat) (rd : ResponseData) :
    REvent.resolved rd
      ∉ (processMultiResponsePacketData st command address data).2.1 := by
  unfold processMultiResponsePacketData
  repeat' split
  all_goals simp

/-- Any response record delivered by the resolution stage either was among
the already emitted events or carries the success bit computed by
`responseSuccess` from its own error code and command. -/
theorem resolveResponse_resolved (st : ReaderState) (events : List REvent)
    (length address command : Nat) (data : List Nat)
    (errorCode : Option Nat) (packetLength : Nat) (rd : ResponseData)
    (h : REvent.resolved rd
      ∈ (resolveResponse st events length address command data errorCode
          packetLength).2) :
    REvent.resolved rd ∈ events ∨
      rd.success = responseSuccess rd.errorCode rd.command := by
  unfold resolveResponse at h
  simp only [List.mem_append] at h
  rcases h with h | h
  · exact Or.inl h
  · right
    rcases hr : (resolveLoop address packetLength
        { length := length, address := address, command := command,
          data := data, errorCode := errorCode,
          success := responseSuccess errorCode command }
        st.responseCallbacks st.queues).2.2 with _ | rd2
    · rw [hr] at h
      simp at h
    · rw [hr] at h
      simp at h
      have he := resolveLoop_resolved_eq _ _ _ _ _ _ hr
      rw [h, he]

/-- C2: for every inbound packet that reaches the resolver, the success flag
passed to the pending-command callback is true if and only if the classified
error code is absent, or equals 0x10 (SUCCESS), or equals 0x38
(BUFFER_IS_EMPTY) while the command of the packet is
GET_AND_RESET_INVENTORY_BUFFER; every other error code value is reported as
a failure. -/
theorem response_success_iff (st : ReaderState) (packet : List Nat)
    (rd : ResponseData)
    (h : REvent.resolved rd ∈ (processResponsePacket st packet).2) :
    rd.success = true ↔
      (rd.errorCode = none ∨ rd.errorCode = some CommandErrors.SUCCESS ∨
        (rd.errorCode = some CommandErrors.BUFFER_IS_EMPTY_ERROR ∧
          rd.command = Command.GET_AND_RESET_INVENTORY_BUFFER)) := by
  have key : rd.success = responseSuccess rd.errorCode rd.command := by
    simp only [processResponsePacket] at h
    split at h
    · simp at h
    · split at h
      · simp at h
      · split at h
        · simp at h
        · split at h
          · simp at h
          · split at h
            · rcases resolveResponse_resolved _ _ _ _ _ _ _ _ _ h with h2 | h2
              · simp at h2
              · exact h2
            · split at h
              · simp at h
              · split at h
                · exact absurd h (processMulti_no_resolved _ _ _ _ _)
                · rcases resolveResponse_resolved _ _ _ _ _ _ _ _ _ h
                    with h2 | h2
                  · exact absurd h2 (processMulti_no_resolved _ _ _ _ _)
                  · exact h2
  rw [key]
  rcases hec : rd.errorCode with _ | n
  · simp [responseSuccess, hec]
  · simp [responseSuccess, hec]

/-- Response record of the simulated working-antenna reply scenario. -/
def workAntennaReply : ResponseData :=
  { length := 4, address := 0xFF, command := Command.SET_WORK_ANTENNA,
    data := [], errorCode := some CommandErrors.SUCCESS, success := true }

/-- Witness for C2: the simulated working-antenna reply reaches the resolver
and its success flag satisfies the equivalence. -/
theorem response_success_iff_witness :
    workAntennaReply.success = true ↔
      (workAntennaReply.errorCode = none ∨
        workAntennaReply.errorCode = some CommandErrors.SUCCESS ∨
        (workAntennaReply.errorCode = some CommandErrors.BUFFER_IS_EMPTY_ERROR ∧
          workAntennaReply.command
            = Command.GET_AND_RESET_INVENTORY_BUFFER)) :=
  response_success_iff (fixtureState [Command.SET_WORK_ANTENNA])
    [0xA0, 0x04, 0xFF, 0x74, 0x10, 0xD9] workAntennaReply (by decide)

/-- Record packets of the two buffered-inventory commands route to the
inventory accumulation branch of the multi-packet handler. -/
theorem processMulti_inventoryBuffer (st : ReaderState) (command address : Nat)
    (data : List Nat)
    (hcmd : command = Command.GET_INVENTORY_BUFFER ∨
      command = Command.GET_AND_RESET_INVENTORY_BUFFER) :
    processMultiResponsePacketData st command address data
      = (st.updateQueues address (fun q => { q with inventory :=
            (st.queues address).inventory ++ [parseBufferedInventoryRecord data] }),
         [],
         decide (readUInt16BE data 0
            ≠ ((st.queues address).inventory
                ++ [parseBufferedInventoryRecord data]).length
          ∨ command = Command.GET_AND_RESET_INVENTORY_BUFFER)) := by
  rcases hcmd with rfl | rfl <;>
  · unfold processMultiResponsePacketData
    split
    · rename_i h
      exact absurd h.1 (by decide)
    · split
      · rename_i h
        rcases h.1 with h | h | h <;> exact absurd h (by decide)
      · split
        · rfl
        · rename_i h
          exact absurd (by decide) h

/-- When the front pending entry matches the command of the reply, the
resolution stage pops exactly that entry, leaves the queues unchanged and
invokes the callback. -/
theorem resolveResponse_head_match (st : ReaderState) (events : List REvent)
    (length address command : Nat) (data : List Nat) (errorCode : Option Nat)
    (packetLength : Nat) (rest : List Nat)
    (hpend : st.responseCallbacks = command :: rest) :
    resolveResponse st events length address command data errorCode packetLength
      = ({ st with responseCallbacks := rest },
         events ++ [REvent.resolved ⟨length, address, command, data, errorCode,
           responseSuccess errorCode command⟩]) := by
  unfold resolveResponse
  rw [hpend]
  simp only [resolveLoop]
  simp

/-- C3 counterexample: a GET_AND_RESET_INVENTORY_BUFFER record packet whose
big-endian count field equals the accumulated queue length is still
swallowed: the record is appended, the count matches the queue length, yet
no event is emitted and the pending entry stays in place, contrary to the
claimed fall-through at equality. -/
theorem getAndReset_swallows_at_count_counterexample :
    (readUInt16BE (bufferRecordData 1) 0 = 1 ∧
      ((processResponsePacket
          (fixtureState [Command.GET_AND_RESET_INVENTORY_BUFFER])
          (sendCommandPacket AddressPUBLIC
            Command.GET_AND_RESET_INVENTORY_BUFFER
            (bufferRecordData 1))).1.queues AddressPUBLIC).inventory.length = 1) ∧
    (processResponsePacket (fixtureState [Command.GET_AND_RESET_INVENTORY_BUFFER])
        (sendCommandPacket AddressPUBLIC Command.GET_AND_RESET_INVENTORY_BUFFER
          (bufferRecordData 1))).2 = [] ∧
    (processResponsePacket (fixtureState [Command.GET_AND_RESET_INVENTORY_BUFFER])
        (sendCommandPacket AddressPUBLIC Command.GET_AND_RESET_INVENTORY_BUFFER
          (bufferRecordData 1))).1.responseCallbacks
      = [Command.GET_AND_RESET_INVENTORY_BUFFER] := by decide

/-- C3 amended: for every record packet of GET_INVENTORY_BUFFER or
GET_AND_RESET_INVENTORY_BUFFER the dispatcher appends the parsed record to
the per-address inventory queue; a GET_INVENTORY_BUFFER packet is swallowed
while the queue length differs from the big-endian count in the record, and
resolves the front pending GET_INVENTORY_BUFFER command when they are
equal, whereas a GET_AND_RESET_INVENTORY_BUFFER record packet is always
swallowed (that command is resolved by its terminal BUFFER_IS_EMPTY reply
instead). -/
theorem inventoryBuffer_record_accumulation (st : ReaderState) (address : Nat)
    (data : List Nat) (rest : List Nat)
    (haddr : st.rs485Address = AddressPUBLIC)
    (hlen : 2 ≤ data.length) :
    (readUInt16BE data 0
        ≠ ((st.queues address).inventory
            ++ [parseBufferedInventoryRecord data]).length →
      ((processResponsePacket st
          (sendCommandPacket address
            Command.GET_INVENTORY_BUFFER data)).1.queues address).inventory
        = (st.queues address).inventory ++ [parseBufferedInventoryRecord data] ∧
      (processResponsePacket st
          (sendCommandPacket address
            Command.GET_INVENTORY_BUFFER data)).1.responseCallbacks
          = st.responseCallbacks ∧
      (processResponsePacket st
          (sendCommandPacket address Command.GET_INVENTORY_BUFFER data)).2
          = []) ∧
    (readUInt16BE data 0
        = ((st.queues address).inventory
            ++ [parseBufferedInventoryRecord data]).length →
      st.responseCallbacks = Command.GET_INVENTORY_BUFFER :: rest →
      ((processResponsePacket st
          (sendCommandPacket address
            Command.GET_INVENTORY_BUFFER data)).1.queues address).inventory
        = (st.queues address).inventory ++ [parseBufferedInventoryRecord data] ∧
      (processResponsePacket st
          (sendCommandPacket address
            Command.GET_INVENTORY_BUFFER data)).1.responseCallbacks = rest ∧
      (processResponsePacket st
          (sendCommandPacket address Command.GET_INVENTORY_BUFFER data)).2
        = [REvent.resolved ⟨data.length + 3, address,
            Command.GET_INVENTORY_BUFFER, data, none, true⟩]) ∧
    (((processResponsePacket st
        (sendCommandPacket address
          Command.GET_AND_RESET_INVENTORY_BUFFER data)).1.queues
          address).inventory
      = (st.queues address).inventory ++ [parseBufferedInventoryRecord data]) ∧
    ((processResponsePacket st
        (sendCommandPacket address
          Command.GET_AND_RESET_INVENTORY_BUFFER data)).1.responseCallbacks
      = st.responseCallbacks) ∧
    (processResponsePacket st
        (sendCommandPacket address
          Command.GET_AND_RESET_INVENTORY_BUFFER data)).2 = [] := by
  have herr : ∀ c, c = Command.GET_INVENTORY_BUFFER ∨
      c = Command.GET_AND_RESET_INVENTORY_BUFFER →
      ¬ (CommandReturnsError c = ReturnsError.YES ∨
        (CommandReturnsError c = ReturnsError.IF_SINGLE_BYTE_DATA ∧
          data.length + 3 = 4) ∨
        (c = Command.GET_RF_LINK_PROFILE ∧
          data.getD 0 0 ∉ RFLinkProfileValues) ∨
        (c = Command.GET_RF_PORT_RETURN_LOSS ∧
          data.getD 0 0 = CommandErrors.FAIL_TO_GET_RF_PORT_RETURN_LOSS) ∨
        (c = Command.TAG_MASK ∧ data.length + 3 = 4 ∧ data.getD 0 0 ≠ 0)) := by
    rintro c (rfl | rfl) <;>
    · rintro (h | h | h | h | h)
      · exact absurd h (by decide)
      · omega
      · exact absurd h.1 (by decide)
      · exact absurd h.1 (by decide)
      · exact absurd h.1 (by decide)
  have hfs : ∀ c, c = Command.GET_INVENTORY_BUFFER ∨
      c = Command.GET_AND_RESET_INVENTORY_BUFFER →
      ¬ (c = Command.FAST_SWITCH_ANT_INVENTORY ∧ data.length + 3 = 5) := by
    rintro c (rfl | rfl) <;> exact fun hcon => absurd hcon.1 (by decide)
  have hred1 := processResponsePacket_reduction st address
    Command.GET_INVENTORY_BUFFER data (by omega) (Or.inl haddr) (by decide)
    (herr _ (Or.inl rfl)) (hfs _ (Or.inl rfl))
  have hred2 := processResponsePacket_reduction st address
    Command.GET_AND_RESET_INVENTORY_BUFFER data (by omega) (Or.inl haddr)
    (by decide) (herr _ (Or.inr rfl)) (hfs _ (Or.inr rfl))
  rw [processMulti_inventoryBuffer st Command.GET_INVENTORY_BUFFER
    address data (Or.inl rfl)] at hred1
  rw [processMulti_inventoryBuffer st Command.GET_AND_RESET_INVENTORY_BUFFER
    address data (Or.inr rfl)] at hred2
  refine ⟨?_, ?_, ?_, ?_, ?_⟩
  · intro hne
    have hne2 : readUInt16BE data 0
        ≠ (st.queues address).inventory.length + 1 := by simpa using hne
    rw [hred1, if_pos (by
      simp [hne2, Command.GET_INVENTORY_BUFFER,
        Command.GET_AND_RESET_INVENTORY_BUFFER])]
    exact ⟨by simp [ReaderState.updateQueues], rfl, rfl⟩
  · intro heq hpend
    have heq2 : readUInt16BE data 0
        = (st.queues address).inventory.length + 1 := by simpa using heq
    rw [hred1, if_neg (by
      simp [heq2, Command.GET_INVENTORY_BUFFER,
        Command.GET_AND_RESET_INVENTORY_BUFFER])]
    rw [resolveResponse_head_match _ _ _ _ _ _ _ _ rest
      (by simpa [ReaderState.updateQueues] using hpend)]
    refine ⟨by simp [ReaderState.updateQueues], rfl, ?_⟩
    simp [responseSuccess]
  · rw [hred2, if_pos (by simp)]
    simp [ReaderState.updateQueues]
  · rw [hred2, if_pos (by simp)]
    rfl
  · rw [hred2, if_pos (by simp)]

/-- Witness for the amended C3 at a concrete record packet whose count field
equals the accumulated queue length. -/
theorem inventoryBuffer_record_accumulation_witness :
    (processResponsePacket (fixtureState [Command.GET_INVENTORY_BUFFER])
        (sendCommandPacket AddressPUBLIC Command.GET_INVENTORY_BUFFER
          (bufferRecordData 1))).1.responseCallbacks = [] ∧
    (processResponsePacket (fixtureState [Command.GET_INVENTORY_BUFFER])
        (sendCommandPacket AddressPUBLIC Command.GET_INVENTORY_BUFFER
          (bufferRecordData 1))).2
      = [REvent.resolved ⟨13, AddressPUBLIC, Command.GET_INVENTORY_BUFFER,
          bufferRecordData 1, none, true⟩] := by
  have h := (inventoryBuffer_record_accumulation
    (fixtureState [Command.GET_INVENTORY_BUFFER]) AddressPUBLIC
    (bufferRecordData 1) [] rfl (by decide)).2.1 (by decide) rfl
  exact ⟨h.2.1, h.2.2⟩

/-- C4 counterexample: startSessionInventory with repeat 1 and powersave 1
registers a deadline of 1·64 + 1·64 + 1000 = 1128 ms, not the claimed
1·255 + 1·64 + 1000 = 1319 ms. -/
theorem sessionInventory_deadline_counterexample :
    (startSessionInventoryRun (fixtureState []) 1 0 0 none none
        (some 1)).map (fun r => r.2.2) = some 1128 ∧
    (1128 : Nat) ≠ 1 * 255 + 1 * 64 + 1000 := ⟨rfl, by decide⟩

/-- C4 amended: buffered, real-time and fast-switch inventory register a
deadline of repeat·255 ms plus the 1000 ms default timeout, while session
inventory registers repeat·64 + powersave·64 ms plus the default timeout
(64, not 255, as the repeat multiplier). -/
theorem inventory_deadlines (st : ReaderState)
    (rep session target restInterval : Nat) (antennas : List (Nat × Nat))
    (sessOpt targOpt select : Option Nat) (phase : Option PhaseMode)
    (powersave : Option Nat)
    (hrep : rep ≤ 255) (hrest : restInterval ≤ 255)
    (hps : ∀ p, powersave = some p → p ≤ 255) :
    DefaultResponseTimeout = 1000 ∧
    (startBufferedInventoryRun st rep).map (fun r => r.2.2)
      = some (rep * 255 + DefaultResponseTimeout) ∧
    (startRealTimeInventoryRun st rep).map (fun r => r.2.2)
      = some (rep * 255 + DefaultResponseTimeout) ∧
    (startFastSwitchAntennaInventoryRun st rep restInterval antennas sessOpt
        targOpt phase).map (fun r => r.2.2)
      = some (rep * 255 + DefaultResponseTimeout) ∧
    (startSessionInventoryRun st rep session target select phase
        powersave).map (fun r => r.2.2)
      = some (rep * 64 + powersave.getD 0 * 64 + DefaultResponseTimeout) := by
  refine ⟨rfl, ?_, ?_, ?_, ?_⟩
  · simp [startBufferedInventoryRun, ensureByteSize, hrep]
  · simp [startRealTimeInventoryRun, ensureByteSize, hrep]
  · simp [startFastSwitchAntennaInventoryRun, ensureByteSize, hrep, hrest]
  · rcases powersave with _ | p
    · simp [startSessionInventoryRun, ensureByteSize, hrep]
    · have hp := hps p rfl
      by_cases hp0 : p = 0
      · subst hp0
        simp [startSessionInventoryRun, ensureByteSize, hrep]
      · simp [startSessionInventoryRun, ensureByteSize, hrep, hp, hp0]

/-- Witness for the amended C4 at concrete arguments. -/
theorem inventory_deadlines_witness :
    (startSessionInventoryRun (fixtureState []) 1 0 0 none none
        (some 2)).map (fun r => r.2.2) = some 1192 ∧
    (startRealTimeInventoryRun (fixtureState []) 2).map (fun r => r.2.2)
      = some 1510 := by
  have h1 := (inventory_deadlines (fixtureState []) 1 0 0 0 [] none none none
    none (some 2) (by decide) (by decide)
    (fun p hp => by cases hp; decide)).2.2.2.2
  have h2 := (inventory_deadlines (fixtureState []) 2 0 0 0 [] none none none
    none none (by decide) (by decide) (fun p hp => by cases hp)).2.2.1
  exact ⟨by simpa using h1, by simpa using h2⟩

/-- Zero UID of the required 8-byte length. -/
def uidZero : List Nat := [0, 0, 0, 0, 0, 0, 0, 0]

/-- C5: evaluating the three 6B tag operations at a concrete input shows
each transmits command byte 0xB1 (ISO18000_6B_READ) rather than its own
code from the wire table (0xB2 for write, 0xB3 for lock, 0xB4 for query
lock). -/
theorem sixB_operations_send_read_code :
    (write6BTagRun (fixtureState []) uidZero 0 1 [0xAB]).map
        (fun p => p.getD 3 0) = some Command.ISO18000_6B_READ ∧
    (lock6BTagByteRun (fixtureState []) uidZero 0).map
        (fun p => p.getD 3 0) = some Command.ISO18000_6B_READ ∧
    (queryLock6BTagByteRun (fixtureState []) uidZero 0).map
        (fun p => p.getD 3 0) = some Command.ISO18000_6B_READ ∧
    Command.ISO18000_6B_READ ≠ Command.ISO18000_6B_WRITE ∧
    Command.ISO18000_6B_READ ≠ Command.ISO18000_6B_LOCK ∧
    Command.ISO18000_6B_READ ≠ Command.ISO18000_6B_QUERY_LOCK := by decide

/-- C6: when the registered deadline fires with no matching reply, a pending
RESET resolves as success with empty data and no error code, while a
pending command of any other code is rejected with a timeout error. -/
theorem timeout_reset_success (rs485Address command : Nat) :
    sendCommandTimeout rs485Address Command.RESET
      = TimeoutOutcome.resolved ⟨3, rs485Address, Command.RESET, [], none,
          true⟩ ∧
    (command ≠ Command.RESET →
      sendCommandTimeout rs485Address command
        = TimeoutOutcome.rejectedTimeout) := by
  constructor
  · simp [sendCommandTimeout]
  · intro h
    simp [sendCommandTimeout, h]

/-- Witness for C6: timeout outcome at address 0xFF for RESET and for
GET_FIRMWARE_VERSION. -/
theorem timeout_reset_success_witness :
    sendCommandTimeout 0xFF Command.RESET
      = TimeoutOutcome.resolved ⟨3, 0xFF, Command.RESET, [], none, true⟩ ∧
    sendCommandTimeout 0xFF Command.GET_FIRMWARE_VERSION
      = TimeoutOutcome.rejectedTimeout :=
  ⟨(timeout_reset_success 0xFF Command.GET_FIRMWARE_VERSION).1,
   (timeout_reset_success 0xFF Command.GET_FIRMWARE_VERSION).2 (by decide)⟩

/-- C7 counterexample: with phase mode OFF the example payload
04 30 00 E2 00 68 15 8B 7F decodes to EPC E2 00 68 15 8B and RSSI -2 dBm;
the claimed EPC E2 00 and RSSI -108 dBm do not match the code on this
input. -/
theorem realTimeInventory_example_counterexample :
    (processCommandInventory PhaseMode.OFF
        [0x04, 0x30, 0x00, 0xE2, 0x00, 0x68, 0x15, 0x8B, 0x7F]).epc
      ≠ [0xE2, 0x00] ∧
    (processCommandInventory PhaseMode.OFF
        [0x04, 0x30, 0x00, 0xE2, 0x00, 0x68, 0x15, 0x8B, 0x7F]).rssi
      ≠ -108 := by decide

/-- C7 amended: with phase mode OFF a valid REAL_TIME_INVENTORY sighting
packet emits a tagFound event whose tag obeys
antenna = (data[0] & 0x03) + 4·(msb of the RSSI byte),
frequency = (data[0] & 0xFC) >> 2 and rssi = (raw & 0x7F) - 129; on the
payload 04 30 00 E2 00 68 15 8B 7F the tag has antenna 0, frequency 1,
pc 0x3000, EPC E2 00 68 15 8B and rssi (0x7F & 0x7F) - 129 = -2 dBm. -/
theorem realTimeInventory_sighting (st : ReaderState) (address : Nat)
    (data : List Nat)
    (haddr : st.rs485Address = AddressPUBLIC)
    (hoff : st.phaseMode = PhaseMode.OFF)
    (hlen : 7 < data.length) :
    processResponsePacket st
        (sendCommandPacket address Command.REAL_TIME_INVENTORY data)
      = (st, [REvent.tagFound (processCommandInventory PhaseMode.OFF data)]) ∧
    (processCommandInventory PhaseMode.OFF data).antenna
      = (data.getD 0 0 &&& 0x03)
        + 4 * (data.getD (data.length - 1) 0 >>> 7) ∧
    (processCommandInventory PhaseMode.OFF data).frequency
      = (data.getD 0 0 &&& 0xfc) >>> 2 ∧
    (processCommandInventory PhaseMode.OFF data).rssi
      = Int.ofNat (data.getD (data.length - 1) 0 &&& 0x7f) - 129 ∧
    processCommandInventory PhaseMode.OFF
        [0x04, 0x30, 0x00, 0xE2, 0x00, 0x68, 0x15, 0x8B, 0x7F]
      = ⟨0x3000, [0xE2, 0x00, 0x68, 0x15, 0x8B], -2, 0, 1, none⟩ := by
  refine ⟨?_, ?_, ?_, ?_, by decide⟩
  · have hred := processResponsePacket_reduction st address
      Command.REAL_TIME_INVENTORY data (by omega) (Or.inl haddr) (by decide)
      (by
        rintro (h | h | h | h | h)
        · exact absurd h (by decide)
        · omega
        · exact absurd h.1 (by decide)
        · exact absurd h.1 (by decide)
        · exact absurd h.1 (by decide))
      (fun hcon => absurd hcon.1 (by decide))
    have hm : processMultiResponsePacketData st Command.REAL_TIME_INVENTORY
        address data
        = (st, [REvent.tagFound (processCommandInventory st.phaseMode data)],
           true) := by
      unfold processMultiResponsePacketData
      split
      · rename_i h
        exact absurd h.1 (by decide)
      · split
        · rfl
        · rename_i h
          exact absurd ⟨Or.inl rfl, hlen⟩ h
    rw [hred, hm, if_pos rfl, hoff]
  · simp [processCommandInventory]
  · simp [processCommandInventory]
  · simp only [processCommandInventory, RSSIOffset, Nat.sub_zero]
    omega

/-- Witness for the amended C7 at the concrete sighting packet. -/
theorem realTimeInventory_sighting_witness :
    processResponsePacket (fixtureState [])
        (sendCommandPacket AddressPUBLIC Command.REAL_TIME_INVENTORY
          [0x04, 0x30, 0x00, 0xE2, 0x00, 0x68, 0x15, 0x8B, 0x7F])
      = (fixtureState [],
         [REvent.tagFound ⟨0x3000, [0xE2, 0x00, 0x68, 0x15, 0x8B], -2, 0, 1,
           none⟩]) := by
  have h := realTimeInventory_sighting (fixtureState []) AddressPUBLIC
    [0x04, 0x30, 0x00, 0xE2, 0x00, 0x68, 0x15, 0x8B, 0x7F] rfl rfl (by decide)
  rw [h.1, h.2.2.2.2]

/-- C8 counterexample: setWorkingAntenna(A2) at address 0xFF writes
A0 04 FF 74 01 E8 (the LRC of the claimed bytes A0 04 FF 74 01 EE is
wrong), and the claimed reply A0 04 FF 74 10 DF fails the LRC integrity
check and is dropped without resolving anything. -/
theorem setWorkingAntenna_claim_bytes_counterexample :
    setWorkingAntennaRun (fixtureState [Command.SET_WORK_ANTENNA])
        AntennaID.A2.code ≠ [0xA0, 0x04, 0xFF, 0x74, 0x01, 0xEE] ∧
    (processResponsePacket (fixtureState [Command.SET_WORK_ANTENNA])
        [0xA0, 0x04, 0xFF, 0x74, 0x10, 0xDF]).2 = [] ∧
    (processResponsePacket (fixtureState [Command.SET_WORK_ANTENNA])
        [0xA0, 0x04, 0xFF, 0x74, 0x10, 0xDF]).1.responseCallbacks
      = [Command.SET_WORK_ANTENNA] := by decide

/-- C8 amended: setWorkingAntenna(A2) with configured address 0xFF writes
exactly the bytes A0 04 FF 74 01 E8, and the reply bytes A0 04 FF 74 10 D9
pass the integrity check and resolve that command with success = true. -/
theorem setWorkingAntenna_scenario :
    setWorkingAntennaRun (fixtureState [Command.SET_WORK_ANTENNA])
        AntennaID.A2.code = [0xA0, 0x04, 0xFF, 0x74, 0x01, 0xE8] ∧
    (processResponsePacket (fixtureState [Command.SET_WORK_ANTENNA])
        [0xA0, 0x04, 0xFF, 0x74, 0x10, 0xD9]).2
      = [REvent.resolved ⟨4, 0xFF, Command.SET_WORK_ANTENNA, [],
          some CommandErrors.SUCCESS, true⟩] ∧
    (processResponsePacket (fixtureState [Command.SET_WORK_ANTENNA])
        [0xA0, 0x04, 0xFF, 0x74, 0x10, 0xD9]).1.responseCallbacks = [] := by
  decide

/-- C9: a valid FAST_SWITCH_ANT_INVENTORY packet with length byte 5 emits an
antennaMissing event for the antenna identified by its first payload byte
and consumes nothing: the state, the pending-command list included, is
returned unchanged; payload byte 0x01 identifies AntennaID.A2 (value 1). -/
theorem fastSwitch_antennaMissing_event (st : ReaderState) (address : Nat)
    (data : List Nat)
    (haddr : st.rs485Address = AddressPUBLIC ∨ address = st.rs485Address)
    (hlen : data.length = 2) :
    processResponsePacket st
        (sendCommandPacket address Command.FAST_SWITCH_ANT_INVENTORY data)
      = (st, [REvent.antennaMissing (antennaIDOfCode (data.getD 0 0))]) ∧
    antennaIDOfCode AntennaID.A2.code = some AntennaID.A2 := by
  refine ⟨?_, by decide⟩
  obtain ⟨d0, dtl, rfl⟩ : ∃ d0 dtl, data = d0 :: dtl := by
    cases data with
    | nil => simp at hlen
    | cons a l => exact ⟨a, l, rfl⟩
  rw [sendCommandPacket_cons]
  set pfx : List Nat :=
    [PacketHeader, (d0 :: dtl).length + 3, address,
      Command.FAST_SWITCH_ANT_INVENTORY] ++ (d0 :: dtl) with hpfx
  set L : Nat := iso1155LRC pfx with hLdef
  have hget1 : (pfx ++ [L]).getD 1 0 = (d0 :: dtl).length + 3 := by
    simp [hpfx]
  have hlenp : (pfx ++ [L]).length = (d0 :: dtl).length + 5 := by
    simp [hpfx]
  have hlast : (pfx ++ [L]).getLastD 0 = L := by simp
  have hdropl : (pfx ++ [L]).dropLast = pfx := List.dropLast_concat
  have hget2 : (pfx ++ [L]).getD 2 0 = address := by simp [hpfx]
  have hget3 : (pfx ++ [L]).getD 3 0 = Command.FAST_SWITCH_ANT_INVENTORY := by
    simp [hpfx]
  have hget4 : (pfx ++ [L]).getD 4 0 = d0 := by simp [hpfx]
  unfold processResponsePacket
  simp only [hget1, hget2, hget3, hget4, hlast, hdropl, hlenp]
  rw [if_neg (by omega)]
  rw [if_neg (by simp [hLdef])]
  rw [if_neg (by
    intro hcon
    rcases haddr with h | h
    · exact hcon.1 h
    · exact hcon.2 h)]
  rw [if_neg (by decide)]
  rw [if_neg (by
    rintro (h | h | h | h | h)
    · exact absurd h (by decide)
    · omega
    · exact absurd h.1 (by decide)
    · exact absurd h.1 (by decide)
    · exact absurd h.1 (by decide))]
  rw [if_pos ⟨trivial, by omega⟩]
  simp

/-- Witness for C9 at the concrete packet A0 05 FF 8A 01 22 AF. -/
theorem fastSwitch_antennaMissing_event_witness :
    processResponsePacket (fixtureState [Command.FAST_SWITCH_ANT_INVENTORY])
        (sendCommandPacket AddressPUBLIC Command.FAST_SWITCH_ANT_INVENTORY
          [0x01, 0x22])
      = (fixtureState [Command.FAST_SWITCH_ANT_INVENTORY],
         [REvent.antennaMissing (some AntennaID.A2)]) := by
  have h := fastSwitch_antennaMissing_event
    (fixtureState [Command.FAST_SWITCH_ANT_INVENTORY]) AddressPUBLIC
    [0x01, 0x22] (Or.inl rfl) rfl
  simpa [antennaIDOfCode] using h.1

/-- C10: after argument validation, startRealTimeInventory resets the
engine phase flag to OFF, while startSessionInventory and
startFastSwitchAntennaInventory set it to the supplied phase argument,
defaulting to OFF when none is supplied. -/
theorem phaseMode_after_inventory_start (st : ReaderState)
    (rep session target restInterval : Nat) (antennas : List (Nat × Nat))
    (sessOpt targOpt select : Option Nat) (phase : Option PhaseMode)
    (powersave : Option Nat)
    (hrep : rep ≤ 255) (hrest : restInterval ≤ 255)
    (hps : ∀ p, powersave = some p → p ≤ 255) :
    (startRealTimeInventoryRun st rep).map (fun r => r.1.phaseMode)
      = some PhaseMode.OFF ∧
    (startSessionInventoryRun st rep session target select phase
        powersave).map (fun r => r.1.phaseMode)
      = some (phase.getD PhaseMode.OFF) ∧
    (startFastSwitchAntennaInventoryRun st rep restInterval antennas sessOpt
        targOpt phase).map (fun r => r.1.phaseMode)
      = some (phase.getD PhaseMode.OFF) := by
  refine ⟨?_, ?_, ?_⟩
  · simp [startRealTimeInventoryRun, ensureByteSize, hrep]
  · rcases powersave with _ | p
    · simp [startSessionInventoryRun, ensureByteSize, hrep]
    · have hp := hps p rfl
      by_cases hp0 : p = 0
      · subst hp0
        simp [startSessionInventoryRun, ensureByteSize, hrep]
      · simp [startSessionInventoryRun, ensureByteSize, hrep, hp, hp0]
  · simp [startFastSwitchAntennaInventoryRun, ensureByteSize, hrep, hrest]

/-- Witness for C10: a phase-enabled session inventory leaves the flag ON
and a following real-time inventory resets it to OFF. -/
theorem phaseMode_after_inventory_start_witness :
    (startSessionInventoryRun (fixtureState []) 1 0 0 (some 0)
        (some PhaseMode.ON) (some 2)).map (fun r => r.1.phaseMode)
      = some PhaseMode.ON ∧
    (startRealTimeInventoryRun (fixtureState []) 1).map
        (fun r => r.1.phaseMode) = some PhaseMode.OFF := by
  have h := phaseMode_after_inventory_start (fixtureState []) 1 0 0 0 []
    none none (some 0) (some PhaseMode.ON) (some 2) (by decide) (by decide)
    (fun p hp => by cases hp; decide)
  exact ⟨by simpa using h.2.1, by simpa using h.1⟩

end R2K
